import Mathlib

set_option maxRecDepth 16384

/-!
Verification of the rongyok-video-downloader core against its design
specification.  The Python sources (`downloader.py`, `cli.py`) are shallowly
embedded below: pure helpers become Lean functions, the effectful download
engine becomes a function over explicit filesystem/session/environment state,
and Python exceptions become an `Except` error channel.  All machine integers
are modelled as unbounded `Int`/`Nat`, matching Python's arbitrary-precision
integers.  String operations are carried out on `List Char`, the character
sequence underlying a Lean `String`.
-/

/-- Python exception classes that can escape or be caught by the code under
study. -/
inductive PyExc where
  | typeError
  | attributeError
  | valueError
  | osError
  deriving DecidableEq, Repr

/-- Model of Python `str.strip()` on a character list: drop whitespace from
both ends. -/
def trimChars (cs : List Char) : List Char :=
  ((cs.dropWhile Char.isWhitespace).reverse.dropWhile Char.isWhitespace).reverse

/-- Model of Python `str.split(sep)` for a one-character separator: always
returns at least one (possibly empty) field. -/
def splitOnChar (c : Char) : List Char → List (List Char)
  | [] => [[]]
  | x :: xs =>
    match splitOnChar c xs with
    | [] => [[]]
    | h :: t => if x = c then [] :: h :: t else (x :: h) :: t

/-- Digit runs accepted by CPython's `int(str)` after the optional sign:
nonempty, all digits or underscores, underscores only strictly between
digits (no leading/trailing underscore, no two in a row). -/
def pyIntDigitsOk (cs : List Char) : Bool :=
  !cs.isEmpty &&
  (cs.head?.all Char.isDigit) &&
  (cs.getLast?.all Char.isDigit) &&
  (cs.all fun c => c.isDigit || c = '_') &&
  ((cs.zip cs.tail).all fun p => !(p.1 = '_' && p.2 = '_'))

/-- Numeric value of a digit run (underscores skipped), base 10. -/
def digitsVal (cs : List Char) : Int :=
  (cs.filter (· ≠ '_')).foldl (fun a c => a * 10 + ((c.toNat : Int) - ('0'.toNat : Int))) 0

/-- Model of CPython `int(s)` on a character sequence: strip whitespace,
optional single sign, then a digit run; raises `ValueError` otherwise. -/
def pyInt (s : List Char) : Except PyExc Int :=
  match trimChars s with
  | '+' :: rest => if pyIntDigitsOk rest then .ok (digitsVal rest) else .error .valueError
  | '-' :: rest => if pyIntDigitsOk rest then .ok (-(digitsVal rest)) else .error .valueError
  | cs => if pyIntDigitsOk cs then .ok (digitsVal cs) else .error .valueError

/-- Model of `re.match(r'(\d+)-(\d+)', part)`: a leading digit run, a dash,
then a digit run; trailing characters are ignored (as `re.match` anchors only
at the start). -/
def rangeMatch (cs : List Char) : Option (Int × Int) :=
  let d1 := cs.takeWhile Char.isDigit
  let rest := cs.dropWhile Char.isDigit
  if d1.isEmpty then none
  else
    match rest with
    | '-' :: rest2 =>
      let d2 := rest2.takeWhile Char.isDigit
      if d2.isEmpty then none else some (digitsVal d1, digitsVal d2)
    | _ => none

/-- Ordered duplicate-free insertion: the sorted list of `{x} ∪ l` when `l`
is strictly sorted.  Used to model a Python `set` of integers together with
the final `sorted(...)` call. -/
def insertSorted (x : Int) : List Int → List Int
  | [] => [x]
  | y :: ys =>
    if x < y then x :: y :: ys
    else if x = y then y :: ys
    else y :: insertSorted x ys

/-- Model of Python `range(lo, hi + 1)` as a list of integers. -/
def intRange (lo hi : Int) : List Int :=
  (List.range (hi + 1 - lo).toNat).map (fun i => lo + i)

/-- Embedding of `cli.parse_episode_range`: "all" (case-insensitive) expands
to `1..max_episode`; otherwise comma-separated parts are stripped, parts
containing a dash are matched as clamped inclusive ranges, other parts are
parsed as single integers kept only when inside `[1, max_episode]`; the
accumulated set is returned sorted ascending (the Python `set` plus
`sorted` is modelled by a strictly sorted duplicate-free accumulator).
`parseStep` is one iteration of the `for part in episode_str.split(','):`
loop. -/
def parseStep (maxEpisode : Int) (acc : List Int) (part : List Char) : List Int :=
  let part := trimChars part
  if part.contains '-' then
    match rangeMatch part with
    | some (a, b) =>
      let lo := max 1 (min a maxEpisode)
      let hi := max 1 (min b maxEpisode)
      (intRange lo hi).foldl (fun a x => insertSorted x a) acc
    | none => acc
  else
    match pyInt part with
    | .ok ep => if 1 ≤ ep ∧ ep ≤ maxEpisode then insertSorted ep acc else acc
    | .error _ => acc

/-- Embedding of `cli.parse_episode_range` itself: the "all" shortcut, then
the accumulation loop over the comma-separated parts. -/
def parse_episode_range (episodeStr : String) (maxEpisode : Int) : List Int :=
  if episodeStr.toList.map Char.toLower = "all".toList then
    (List.range maxEpisode.toNat).map (fun (i : Nat) => (i : Int) + 1)
  else
    (splitOnChar ',' episodeStr.toList).foldl (parseStep maxEpisode) []

/-- Zero-padding of `f"{episode:02d}"`: nonnegative single-digit numbers gain
one leading zero; everything else (two or more digits, or negative) prints
as-is. -/
def pad2 (n : Int) : String :=
  if 0 ≤ n ∧ n < 10 then "0" ++ toString n else toString n

/-- Embedding of `VideoDownloader.get_episode_filename` (final-artifact name
inside the output directory). -/
def get_episode_filename (episode : Int) : String :=
  "ep_" ++ pad2 episode ++ ".mp4"

/-- Model of `pathlib.Path.with_suffix` on a file name: drop the existing
last-dot suffix (a dot at position 0 does not start a suffix), then append
the new suffix. -/
def withSuffix (name suffix : String) : String :=
  let cs := name.toList
  let revTail := cs.reverse.takeWhile (· ≠ '.')
  let stem :=
    if revTail.length < cs.length && cs.length - revTail.length - 1 > 0 then
      cs.take (cs.length - revTail.length - 1)
    else cs
  String.mk stem ++ suffix

/-- Partial-artifact name used by `download_episode`:
`output_file.with_suffix('.mp4.part')`. -/
def temp_filename (episode : Int) : String :=
  withSuffix (get_episode_filename episode) ".mp4.part"

/-- Strict lexicographic order on character sequences (the order in which a
filesystem listing sorts ASCII file names). -/
def lexLt : List Char → List Char → Bool
  | [], [] => false
  | [], _ :: _ => true
  | _ :: _, [] => false
  | a :: as, b :: bs => if a < b then true else if b < a then false else lexLt as bs

example : parse_episode_range "1-5,10,15-20" 20 = [1,2,3,4,5,10,15,16,17,18,19,20] := by decide
example : parse_episode_range "25" 20 = [] := by decide
example : parse_episode_range "0-3" 20 = [1,2,3] := by decide
example : parse_episode_range "all" 5 = [1,2,3,4,5] := by decide
example : parse_episode_range "10-5" 20 = [] := by decide
example : parse_episode_range "1,1,2" 20 = [1,2] := by decide
example : get_episode_filename 7 = "ep_07.mp4" := by decide
example : get_episode_filename 70 = "ep_70.mp4" := by decide
example : temp_filename 7 = "ep_07.mp4.part" := by decide
example : lexLt (get_episode_filename 7).toList (get_episode_filename 70).toList = true := by decide

/-- Embedding of the `DownloadProgress` dataclass (`downloader.py`). -/
structure DownloadProgress where
  episode : Int
  downloaded_bytes : Int
  total_bytes : Int
  completed : Bool
  deriving DecidableEq, Repr

/-- Embedding of the `DownloadState` dataclass (`downloader.py`). -/
structure DownloadState where
  series_id : Int
  series_title : String
  total_episodes : Int
  output_dir : String
  selected_episodes : List Int
  completed_episodes : List Int
  current_episode : Option Int
  current_progress : Option DownloadProgress
  deriving DecidableEq, Repr

/-- Embedding of the `EpisodeInfo` dataclass (`parser.py`). -/
structure EpisodeInfo where
  episode_number : Int
  title : String
  video_url : String
  deriving DecidableEq, Repr

/-- JSON values, the parse result of `json.load` on a snapshot file. -/
inductive Json where
  | null
  | bool (b : Bool)
  | num (n : Int)
  | str (s : String)
  | arr (elems : List Json)
  | obj (fields : List (String × Json))

/-- Key lookup in a JSON object, as on a Python `dict` built by `json.load`. -/
def lookupKey (l : List (String × Json)) (k : String) : Option Json :=
  (l.find? (fun kv => kv.1 == k)).map (·.2)

/-- Python truthiness of a JSON-decoded value (`if data.get(...)`). -/
def jsonTruthy : Json → Bool
  | .null => false
  | .bool b => b
  | .num n => n != 0
  | .str s => !s.isEmpty
  | .arr l => !l.isEmpty
  | .obj l => !l.isEmpty

/-- The keyword arguments `DownloadProgress.__init__` accepts. -/
def progressKeys : List String :=
  ["episode", "downloaded_bytes", "total_bytes", "completed"]

/-- The keyword checks `DownloadProgress(**d)` performs: every keyword must
name a known parameter, and the three parameters without defaults must be
present (`completed` defaults to `False`); a violation raises `TypeError`.
CPython dataclasses perform no validation of the argument values. -/
def progressCtorOk (pl : List (String × Json)) : Bool :=
  pl.all (fun kv => progressKeys.contains kv.1) &&
  (lookupKey pl "episode").isSome &&
  (lookupKey pl "downloaded_bytes").isSome &&
  (lookupKey pl "total_bytes").isSome

/-- The keyword arguments `DownloadState.__init__` accepts. -/
def stateKeys : List String :=
  ["series_id", "series_title", "total_episodes", "output_dir",
   "selected_episodes", "completed_episodes", "current_episode", "current_progress"]

/-- The keyword checks `DownloadState(**data)` performs: known parameters
only, the six parameters without defaults present; values unvalidated. -/
def stateCtorOk (l : List (String × Json)) : Bool :=
  l.all (fun kv => stateKeys.contains kv.1) &&
  (lookupKey l "series_id").isSome &&
  (lookupKey l "series_title").isSome &&
  (lookupKey l "total_episodes").isSome &&
  (lookupKey l "output_dir").isSome &&
  (lookupKey l "selected_episodes").isSome &&
  (lookupKey l "completed_episodes").isSome

/-- Decode a JSON array of numbers into the `list[int]` fields. -/
def decodeIntList : List Json → Option (List Int)
  | [] => some []
  | .num n :: rest => (decodeIntList rest).map (n :: ·)
  | _ :: _ => none

/-- When the `DownloadProgress` object built from these keyword arguments
happens to have fields of the declared types, the corresponding record. -/
def decodeTypedProgress (pl : List (String × Json)) : Option DownloadProgress :=
  match lookupKey pl "episode", lookupKey pl "downloaded_bytes", lookupKey pl "total_bytes" with
  | some (.num e), some (.num d), some (.num t) =>
    match lookupKey pl "completed" with
    | none => some ⟨e, d, t, false⟩
    | some (.bool b) => some ⟨e, d, t, b⟩
    | some _ => none
  | _, _, _ => none

/-- When the `DownloadState` object `load` builds from this document happens
to have fields of the declared types — `current_progress` either
absent/`None` or converted into a well-typed progress record — the
corresponding record. -/
def decodeTypedState (l : List (String × Json)) : Option DownloadState :=
  match lookupKey l "series_id", lookupKey l "series_title",
        lookupKey l "total_episodes", lookupKey l "output_dir",
        lookupKey l "selected_episodes", lookupKey l "completed_episodes" with
  | some (.num sid), some (.str title), some (.num tot), some (.str outd),
    some (.arr sel), some (.arr comp) =>
    match decodeIntList sel, decodeIntList comp with
    | some selL, some compL =>
      let ceTyped : Option (Option Int) :=
        match lookupKey l "current_episode" with
        | none => some none
        | some .null => some none
        | some (.num n) => some (some n)
        | some _ => none
      let cpTyped : Option (Option DownloadProgress) :=
        match lookupKey l "current_progress" with
        | none => some none
        | some j =>
          if jsonTruthy j then
            match j with
            | .obj pl => (decodeTypedProgress pl).map some
            | _ => none
          else
            match j with
            | .null => some none
            | _ => none
      match ceTyped, cpTyped with
      | some ce, some cp => some ⟨sid, title, tot, outd, selL, compL, ce, cp⟩
      | _, _ => none
    | _, _ => none
  | _, _, _, _, _, _ => none

/-- What `DownloadState.load` hands back for a decodable snapshot that
passed the constructor keyword checks.  CPython dataclasses accept the
argument values unvalidated, so the constructed object either has fields of
the declared types (`typed`), or carries junk in some field (`untyped`) —
in which case it is represented by the raw document, of which the object
is a deterministic function. -/
inductive LoadedState where
  | typed (s : DownloadState)
  | untyped (j : Json)

/-- Model of the body of `DownloadState.load` after a successful
`json.load`: `data.get('current_progress')` raises `AttributeError` when
the document is not an object (lists, strings, numbers and `null` have no
`.get`); a truthy `current_progress` is converted via
`DownloadProgress(**...)`, raising `TypeError` when it is not an object or
its keywords do not match; then `DownloadState(**data)` raises `TypeError`
when its keywords do not match.  Field values are never validated: every
keyword-correct document constructs, yielding `typed` when all values have
the declared types and `untyped` otherwise. -/
def stateOfJson : Json → Except PyExc LoadedState
  | .obj l =>
    let cpStep : Except PyExc Unit :=
      match lookupKey l "current_progress" with
      | none => .ok ()
      | some j =>
        if jsonTruthy j then
          match j with
          | .obj pl => if progressCtorOk pl then .ok () else .error .typeError
          | _ => .error .typeError
        else .ok ()
    match cpStep with
    | .error e => .error e
    | .ok _ =>
      if stateCtorOk l then
        match decodeTypedState l with
        | some s => .ok (.typed s)
        | none => .ok (.untyped (.obj l))
      else .error .typeError
  | _ => .error .attributeError

/-- Serialization of a progress record, as produced by `dataclasses.asdict`
inside `DownloadState.save`. -/
def progressToJson (p : DownloadProgress) : Json :=
  .obj [("episode", .num p.episode), ("downloaded_bytes", .num p.downloaded_bytes),
        ("total_bytes", .num p.total_bytes), ("completed", .bool p.completed)]

/-- Serialization of the session state, as produced by
`json.dump(asdict(self))` in `DownloadState.save`. -/
def stateToJson (s : DownloadState) : Json :=
  .obj [("series_id", .num s.series_id),
        ("series_title", .str s.series_title),
        ("total_episodes", .num s.total_episodes),
        ("output_dir", .str s.output_dir),
        ("selected_episodes", .arr (s.selected_episodes.map .num)),
        ("completed_episodes", .arr (s.completed_episodes.map .num)),
        ("current_episode", match s.current_episode with | none => .null | some n => .num n),
        ("current_progress", match s.current_progress with | none => .null | some p => progressToJson p)]

/-- What the snapshot file can hold when `DownloadState.load` opens it:
no file at all, bytes `json.load` rejects, or a decoded JSON document. -/
inductive FileContent where
  | missing
  | undecodable
  | content (j : Json)

/-- Embedding of `DownloadState.load`: `FileNotFoundError` and
`json.JSONDecodeError` are caught and become `None`; any error raised while
rebuilding the dataclasses from a decoded document is not in the `except`
clause and escapes. -/
def DownloadState.load (file : FileContent) : Except PyExc (Option LoadedState) :=
  match file with
  | .missing => .ok none
  | .undecodable => .ok none
  | .content j =>
    match stateOfJson j with
    | .ok s => .ok (some s)
    | .error e => .error e

/-- Embedding of `DownloadState.save`: the snapshot file afterwards holds the
serialized state. -/
def DownloadState.saveFile (s : DownloadState) : FileContent :=
  .content (stateToJson s)

/-- A keyword-correct snapshot with a wrong-shaped field value (a string
`series_id`): `DownloadState(**data)` constructs from it without complaint,
so `load` returns a (malformed) state object, neither `None` nor an
exception. -/
def junkSnapshot : Json :=
  .obj [("series_id", .str "941"),
        ("series_title", .str "Test"),
        ("total_episodes", .num 30),
        ("output_dir", .str "./output"),
        ("selected_episodes", .arr []),
        ("completed_episodes", .arr []),
        ("current_episode", .null),
        ("current_progress", .null)]

example : DownloadState.load .missing = .ok none := by rfl
example : DownloadState.load (.content (.obj [])) = .error .typeError := by rfl
example : DownloadState.load (.content (.arr [])) = .error .attributeError := by rfl
example : DownloadState.load (.content junkSnapshot)
    = .ok (some (.untyped junkSnapshot)) := by rfl

/-- One step of `response.iter_content`: either a chunk of bytes or a network
fault raised by the iterator (`requests` exception). -/
inductive Item where
  | data (chunk : List Nat)
  | err
  deriving DecidableEq, Repr

/-- The HTTP response `session.get` produced: status plus the two headers the
code reads (kept as raw strings, as `requests` exposes them) and the body
chunk stream. -/
structure HttpResponse where
  status : Nat
  contentRange : Option String
  contentLength : Option String
  body : List Item
  deriving DecidableEq, Repr

/-- The environment one `download_episode` call runs in: the request outcome
(`none` models a `requests.RequestException`, timeouts included), the value
of the cancelled flag observed at each chunk boundary (the flag is mutated
by another thread, so it is a function of the iteration index), and the
filesystem faults — all modelled as uncaught `OSError`: opening the partial
artifact, `f.write` of the chunk at a given iteration (nothing written when
it raises), the n-th state-snapshot write performed by `_save_state` during
this call (counted over the snapshots persisted so far; `_save_state` does
nothing, and so cannot fail, when no session state exists), and the final
`temp_file.rename`.  The pause flag only delays the loop and never changes
any modelled observable, so it is not represented. -/
structure Env where
  resp : Option HttpResponse
  cancelAt : Nat → Bool
  openFails : Bool
  writeFailAt : Nat → Bool
  saveFailAt : Nat → Bool
  renameFails : Bool

/-- A cooperating filesystem: no fault source of `Env` ever fires. -/
def fsReliable (env : Env) : Prop :=
  env.openFails = false ∧ (∀ k, env.writeFailAt k = false) ∧
  (∀ n, env.saveFailAt n = false) ∧ env.renameFails = false

/-- The two on-disk artifacts of one episode: the partial (`.mp4.part`) file
and the final (`.mp4`) file; `none` means the file does not exist. -/
structure FS where
  temp : Option (List Nat)
  final : Option (List Nat)
  deriving DecidableEq, Repr

/-- `VideoDownloader.CHUNK_SIZE` (1 MiB). -/
def CHUNK_SIZE : Nat := 1024 * 1024

/-- The effect of a fault-free `self._save_state()`: appends a snapshot of
the in-memory state to the sequence of persisted snapshots, and does nothing
when there is no state. -/
def saveIf (st : Option DownloadState) (saves : List DownloadState) : List DownloadState :=
  match st with
  | some s => saves ++ [s]
  | none => saves

/-- `self._save_state()` itself: writing the state file may raise `OSError`
(the call is nowhere wrapped in a handler that catches it); with no session
state nothing is written and nothing can fail. -/
def saveIfE (env : Env) (st : Option DownloadState) (saves : List DownloadState) :
    Except PyExc (List DownloadState) :=
  match st with
  | none => .ok saves
  | some s =>
    if env.saveFailAt saves.length then .error .osError
    else .ok (saves ++ [s])

/-- `temp_file.stat().st_size` guarded by `temp_file.exists()`. -/
def tempLen (fs : FS) : Nat :=
  match fs.temp with
  | some b => b.length
  | none => 0

/-- Bytes of the partial artifact (empty when absent); the initial content of
the file opened in append mode. -/
def tempBytes (fs : FS) : List Nat :=
  match fs.temp with
  | some b => b
  | none => []

/-- `int(content_range.split('/')[-1]) if '/' in content_range else 0`, with
the header defaulting to `''`; a non-numeric total raises `ValueError`. -/
def contentRangeTotal (cr : Option String) : Except PyExc Int :=
  let cs := (cr.getD "").toList
  if cs.contains '/' then pyInt ((splitOnChar '/' cs).getLastD [])
  else .ok 0

/-- `int(response.headers.get('Content-Length', 0))`; a present non-numeric
header raises `ValueError`. -/
def contentLengthTotal (cl : Option String) : Except PyExc Int :=
  match cl with
  | none => .ok 0
  | some s => pyInt s.toList

/-- Status classification of `download_episode` (lines 178-188): `206` reads
the total from `Content-Range` and keeps the local offset, `200` reads
`Content-Length` and resets the offset to `0`, anything else reports failure
(`none`).  The returned triple is (total bytes, downloaded bytes, status was
206). -/
def classify (r : HttpResponse) (downloaded0 : Nat) : Except PyExc (Option (Int × Nat × Bool)) :=
  if r.status = 206 then (contentRangeTotal r.contentRange).map (fun t => some (t, downloaded0, true))
  else if r.status = 200 then (contentLengthTotal r.contentLength).map (fun t => some (t, 0, false))
  else .ok none

/-- In-flight state of the chunk loop: file buffer, cumulative downloaded
bytes, bytes since the last checkpoint, in-memory session state, persisted
snapshots so far. -/
structure LoopSt where
  buffer : List Nat
  downloaded : Nat
  bytesSince : Nat
  st : Option DownloadState
  saves : List DownloadState
  deriving DecidableEq, Repr

/-- How the chunk loop ends: all chunks consumed, cancellation observed at
a chunk boundary, a network fault raised by the body iterator (a
`requests` exception, caught further out), or an uncaught filesystem fault
(`OSError` from `f.write` or from a checkpoint `_save_state`) escaping the
loop; in every case the carried state records the bytes written and the
snapshots persisted up to that point. -/
inductive LoopOut where
  | finished (s : LoopSt)
  | cancelled (s : LoopSt)
  | netErr (s : LoopSt)
  | raised (s : LoopSt)
  deriving DecidableEq, Repr

/-- How one iteration body ends: normally, or with an uncaught `OSError`. -/
inductive BodyOut where
  | ok (s : LoopSt)
  | raised (s : LoopSt)
  deriving DecidableEq, Repr

/-- One iteration's effect in the chunk loop (lines 228-252): a non-empty
chunk is appended to the file and the counters advance; every
`CHUNK_SIZE * 5` bytes the progress checkpoint is persisted (only when a
session state exists, matching `if self.state and ...`). -/
def loopBody (env : Env) (epNum total : Int) (k : Nat) (c : List Nat) (s : LoopSt) : BodyOut :=
  if c.isEmpty then .ok s
  else if env.writeFailAt k then .raised s
  else
    let buffer := s.buffer ++ c
    let downloaded := s.downloaded + c.length
    let bytesSince := s.bytesSince + c.length
    match s.st with
    | some ss =>
      if CHUNK_SIZE * 5 ≤ bytesSince then
        let ss' : DownloadState :=
          { ss with current_progress := some ⟨epNum, (downloaded : Int), total, false⟩ }
        match saveIfE env (some ss') s.saves with
        | .ok saves' => .ok ⟨buffer, downloaded, 0, some ss', saves'⟩
        | .error _ => .raised ⟨buffer, downloaded, bytesSince, some ss', s.saves⟩
      else .ok ⟨buffer, downloaded, bytesSince, some ss, s.saves⟩
    | none => .ok ⟨buffer, downloaded, bytesSince, none, s.saves⟩

/-- Embedding of the `for chunk in response.iter_content(...)` loop
(lines 217-252): producing the next item may itself raise a network fault;
otherwise the cancelled flag is checked at the chunk boundary and, when
clear, the chunk is processed by `loopBody`. -/
def runLoop (env : Env) (epNum total : Int) :
    List Item → Nat → LoopSt → LoopOut
  | [], _, s => .finished s
  | .err :: _, _, s => .netErr s
  | .data c :: rest, k, s =>
    if env.cancelAt k then .cancelled s
    else
      match loopBody env epNum total k c s with
      | .ok s' => runLoop env epNum total rest (k + 1) s'
      | .raised s' => .raised s'

/-- Everything one `download_episode` call produces or leaves behind: the
return value (or the escaped exception), the episode's files, the in-memory
session state, the sequence of snapshots persisted during the call, and the
byte offset of the `Range` header sent (if any). -/
structure DLResult where
  ret : Except PyExc Bool
  fs : FS
  st : Option DownloadState
  saves : List DownloadState
  rangeRequested : Option Nat
  deriving Repr

/-- Embedding of `VideoDownloader.download_episode`.  The call measures the
partial artifact, marks the current episode in the session state, sends the
request (with a `Range` header when resuming), classifies the response,
records and persists the initial progress, opens the partial artifact in
append mode exactly when resuming an honored range request, streams the
body, and on completion renames the partial artifact, marks the episode
completed and persists.  Only `requests.RequestException` is caught
(returning `False` after one more `_save_state`); `OSError` from any
filesystem operation — opening or writing the partial artifact, writing a
state snapshot (also the one inside the `except` handler), the final rename
— and `ValueError` from header parsing escape. -/
def download_episode (ep : EpisodeInfo) (env : Env) (fs : FS)
    (st0 : Option DownloadState) : DLResult :=
  let downloaded0 := tempLen fs
  let st1 := st0.map (fun s => { s with current_episode := some ep.episode_number })
  let rangeHdr : Option Nat := if downloaded0 > 0 then some downloaded0 else none
  match env.resp with
  | none =>
    match saveIfE env st1 [] with
    | .ok sv => ⟨.ok false, fs, st1, sv, rangeHdr⟩
    | .error e => ⟨.error e, fs, st1, [], rangeHdr⟩
  | some r =>
    match classify r downloaded0 with
    | .error e => ⟨.error e, fs, st1, [], rangeHdr⟩
    | .ok none => ⟨.ok false, fs, st1, [], rangeHdr⟩
    | .ok (some (total, dl1, is206)) =>
      let st2 := st1.map (fun s =>
        { s with current_progress := some ⟨ep.episode_number, (dl1 : Int), total, false⟩ })
      match saveIfE env st2 [] with
      | .error e => ⟨.error e, fs, st2, [], rangeHdr⟩
      | .ok saves1 =>
        if env.openFails then ⟨.error .osError, fs, st2, saves1, rangeHdr⟩
        else
          let buf0 := if dl1 > 0 && is206 then tempBytes fs else []
          match runLoop env ep.episode_number total r.body 0 ⟨buf0, dl1, 0, st2, saves1⟩ with
          | .raised ls =>
            ⟨.error .osError, ⟨some ls.buffer, fs.final⟩, ls.st, ls.saves, rangeHdr⟩
          | .cancelled ls =>
            match saveIfE env ls.st ls.saves with
            | .ok sv => ⟨.ok false, ⟨some ls.buffer, fs.final⟩, ls.st, sv, rangeHdr⟩
            | .error e => ⟨.error e, ⟨some ls.buffer, fs.final⟩, ls.st, ls.saves, rangeHdr⟩
          | .netErr ls =>
            match saveIfE env ls.st ls.saves with
            | .ok sv => ⟨.ok false, ⟨some ls.buffer, fs.final⟩, ls.st, sv, rangeHdr⟩
            | .error e => ⟨.error e, ⟨some ls.buffer, fs.final⟩, ls.st, ls.saves, rangeHdr⟩
          | .finished ls =>
            if env.renameFails then
              ⟨.error .osError, ⟨some ls.buffer, fs.final⟩, ls.st, ls.saves, rangeHdr⟩
            else
              let st3 := ls.st.map (fun s =>
                { s with
                  completed_episodes :=
                    if ep.episode_number ∈ s.completed_episodes then s.completed_episodes
                    else s.completed_episodes ++ [ep.episode_number],
                  current_episode := none,
                  current_progress := none })
              match saveIfE env st3 ls.saves with
              | .ok sv => ⟨.ok true, ⟨none, some ls.buffer⟩, st3, sv, rangeHdr⟩
              | .error e => ⟨.error e, ⟨none, some ls.buffer⟩, st3, ls.saves, rangeHdr⟩

/-- Embedding of `VideoDownloader.get_remaining_episodes`. -/
def get_remaining_episodes (st : Option DownloadState) : List Int :=
  match st with
  | none => []
  | some s => s.selected_episodes.filter (fun ep => ep ∉ s.completed_episodes)

/-- Environment of one `download_all` call: the per-iteration transfer
environment, and the values of the cancelled flag observed at the top of each
iteration and in the `if not self._cancelled` test after a failed transfer
(the flag is mutated externally, so each read is its own observation). -/
structure BatchEnv where
  envs : Nat → Env
  cancelBefore : Nat → Bool
  cancelAfter : Nat → Bool

/-- Outcome of `download_all`: the `(successful, failed)` counters, the
per-episode files, the in-memory session state, and how many
`download_episode` calls were made. -/
structure BatchResult where
  successful : Nat
  failed : Nat
  fss : Int → FS
  st : Option DownloadState
  transfers : Nat

/-- The loop of `VideoDownloader.download_all` (lines 293-313): break when
cancelled, count already-completed episodes as successes without a transfer,
otherwise transfer; a transfer's escaped exception also escapes
`download_all`, and a failure increments `failed` only when the cancelled
flag is still clear. -/
def download_all_go (benv : BatchEnv) :
    List EpisodeInfo → Nat → Nat → Nat → (Int → FS) → Option DownloadState → Nat →
    Except PyExc BatchResult
  | [], _, succ, fail, fss, st, n => .ok ⟨succ, fail, fss, st, n⟩
  | e :: rest, i, succ, fail, fss, st, n =>
    if benv.cancelBefore i then .ok ⟨succ, fail, fss, st, n⟩
    else if (match st with
             | some s => decide (e.episode_number ∈ s.completed_episodes)
             | none => false) then
      download_all_go benv rest (i + 1) (succ + 1) fail fss st n
    else
      let r := download_episode e (benv.envs i) (fss e.episode_number) st
      let fss' := fun m => if m = e.episode_number then r.fs else fss m
      match r.ret with
      | .ok true => download_all_go benv rest (i + 1) (succ + 1) fail fss' r.st (n + 1)
      | .ok false =>
        let fail' := if benv.cancelAfter i then fail else fail + 1
        download_all_go benv rest (i + 1) succ fail' fss' r.st (n + 1)
      | .error ex => .error ex

/-- Embedding of `VideoDownloader.download_all`. -/
def download_all (benv : BatchEnv) (episodes : List EpisodeInfo) (fss : Int → FS)
    (st : Option DownloadState) : Except PyExc BatchResult :=
  download_all_go benv episodes 0 0 0 fss st 0

/- Sanity checks mirroring the repository's own unit tests for
`download_episode` (`tests/test_downloader.py`). -/

/-- The episode descriptor the unit tests use. -/
def epOne : EpisodeInfo := ⟨1, "ep 1", "http://example.com/video.mp4"⟩

/-- A fresh-download environment: 200, 1000 declared bytes, one 1000-byte
chunk. -/
def envFresh : Env :=
  ⟨some ⟨200, none, some "1000", [.data (List.replicate 1000 120)]⟩,
   fun _ => false, false, fun _ => false, fun _ => false, false⟩

example :
    (download_episode epOne envFresh ⟨none, none⟩ none).ret = .ok true := by rfl
example :
    (download_episode epOne envFresh ⟨none, none⟩ none).fs.final
      = some (List.replicate 1000 120) := by decide
example :
    (download_episode epOne envFresh ⟨none, none⟩ none).rangeRequested = none := by rfl

/-- The resume environment of `test_download_episode_resume_partial`: a
500-byte partial file, a 206 answer carrying `bytes 500-999/1000`, one
500-byte chunk. -/
def envResume : Env :=
  ⟨some ⟨206, some "bytes 500-999/1000", none, [.data (List.replicate 500 121)]⟩,
   fun _ => false, false, fun _ => false, fun _ => false, false⟩

example :
    (download_episode epOne envResume ⟨some (List.replicate 500 120), none⟩ none).ret
      = .ok true := by rfl
example :
    (download_episode epOne envResume ⟨some (List.replicate 500 120), none⟩ none).rangeRequested
      = some 500 := by decide
example :
    (download_episode epOne envResume ⟨some (List.replicate 500 120), none⟩ none).fs.final
      = some (List.replicate 500 120 ++ List.replicate 500 121) := by decide

/-- HTTP error environment (`test_download_episode_http_error`). -/
def envNotFound : Env :=
  ⟨some ⟨404, none, none, []⟩, fun _ => false, false, fun _ => false, fun _ => false, false⟩

example : (download_episode epOne envNotFound ⟨none, none⟩ none).ret = .ok false := by rfl

/-- Network-failure environment (`test_download_episode_network_error`). -/
def envNetErr : Env :=
  ⟨none, fun _ => false, false, fun _ => false, fun _ => false, false⟩

example : (download_episode epOne envNetErr ⟨none, none⟩ none).ret = .ok false := by rfl

/-- Cancellation environment (`test_download_episode_cancelled`): two
1000-byte chunks, the cancelled flag set between the first and the second. -/
def envCancel : Env :=
  ⟨some ⟨200, none, some "10000", [.data (List.replicate 1000 120), .data (List.replicate 1000 120)]⟩,
   fun k => decide (1 ≤ k), false, fun _ => false, fun _ => false, false⟩

example : (download_episode epOne envCancel ⟨none, none⟩ none).ret = .ok false := by rfl
example :
    (download_episode epOne envCancel ⟨none, none⟩ none).fs.temp
      = some (List.replicate 1000 120) := by decide
example : (download_episode epOne envCancel ⟨none, none⟩ none).fs.final = none := by rfl

/-- A concrete idle session state (the one the repository's unit tests use). -/
def sampleState : DownloadState :=
  ⟨941, "Test Series", 30, "./output", [1, 2, 3, 4, 5], [1, 2], none, none⟩

/-- Environment where opening the partial artifact raises `OSError`
(permission denied / disk full). -/
def envOpenFail : Env :=
  ⟨some ⟨200, none, some "1000", [.data [120]]⟩,
   fun _ => false, true, fun _ => false, fun _ => false, false⟩

/-- Environment where writing the first chunk to the partial artifact raises
`OSError` (storage full). -/
def envWriteFail : Env :=
  ⟨some ⟨200, none, some "1000", [.data [120]]⟩,
   fun _ => false, false, fun _ => true, fun _ => false, false⟩

/-- Environment where renaming the completed partial artifact raises
`OSError`. -/
def envRenameFail : Env :=
  ⟨some ⟨200, none, some "1000", [.data [120]]⟩,
   fun _ => false, false, fun _ => false, fun _ => false, true⟩

/-- Environment where the request raises a network error and every state
snapshot write — in particular the one in the `except` handler — raises
`OSError`. -/
def envSaveFailOnNetErr : Env :=
  ⟨none, fun _ => false, false, fun _ => false, fun _ => true, false⟩

/-- A 206 resume environment whose cancel flag turns on at the second chunk
boundary: chunk `[1, 2]` is written, then cancellation is observed. -/
def envCancel206 : Env :=
  ⟨some ⟨206, some "bytes 2-9/10", none, [.data [1, 2], .data [3, 4], .data [5, 6]]⟩,
   fun k => decide (1 ≤ k), false, fun _ => false, fun _ => false, false⟩

/-- A 206 resume environment with cancellation cleared, used for the call
following a cancelled one. -/
def envResumeAfterCancel : Env :=
  ⟨some ⟨206, some "bytes 4-9/10", none, [.data [7, 8]]⟩,
   fun _ => false, false, fun _ => false, fun _ => false, false⟩

/-- A batch environment whose cancelled flag stays clear; its per-episode
transfer environment is never reached in the idempotence scenario. -/
def benvIdle : BatchEnv :=
  ⟨fun _ => envNetErr, fun _ => false, fun _ => false⟩

/-! ## Properties of the selection parser (claim C8) -/

theorem insertSorted_mem (x a : Int) : ∀ l : List Int, a ∈ insertSorted x l ↔ a = x ∨ a ∈ l := by
  intro l
  induction l with
  | nil => simp [insertSorted]
  | cons y ys ih =>
    unfold insertSorted
    by_cases h1 : x < y
    · simp [h1]
    · by_cases h2 : x = y
      · subst h2; simp [h1]
      · simp only [h1, h2, if_false, ite_false, List.mem_cons, ih]
        tauto

theorem insertSorted_sorted (x : Int) :
    ∀ l : List Int, l.Sorted (· < ·) → (insertSorted x l).Sorted (· < ·) := by
  intro l
  induction l with
  | nil => intro _; simp [insertSorted]
  | cons y ys ih =>
    intro h
    rw [List.sorted_cons] at h
    obtain ⟨hy, hys⟩ := h
    unfold insertSorted
    by_cases h1 : x < y
    · rw [if_pos h1, List.sorted_cons]
      refine ⟨?_, List.sorted_cons.mpr ⟨hy, hys⟩⟩
      intro b hb
      rcases List.mem_cons.mp hb with rfl | hb
      · exact h1
      · exact h1.trans (hy b hb)
    · rw [if_neg h1]
      by_cases h2 : x = y
      · rw [if_pos h2]
        exact List.sorted_cons.mpr ⟨hy, hys⟩
      · rw [if_neg h2, List.sorted_cons]
        refine ⟨?_, ih hys⟩
        intro b hb
        rcases (insertSorted_mem x b ys).mp hb with rfl | hb
        · omega
        · exact hy b hb

theorem foldl_insertSorted_sorted :
    ∀ (xs acc : List Int), acc.Sorted (· < ·) →
      (xs.foldl (fun a x => insertSorted x a) acc).Sorted (· < ·) := by
  intro xs
  induction xs with
  | nil => intro acc h; exact h
  | cons x xs ih => intro acc h; exact ih _ (insertSorted_sorted x acc h)

theorem parseStep_sorted (m : Int) (acc : List Int) (part : List Char)
    (h : acc.Sorted (· < ·)) : (parseStep m acc part).Sorted (· < ·) := by
  unfold parseStep
  dsimp only
  split
  · split
    · exact foldl_insertSorted_sorted _ _ h
    · exact h
  · split
    · split
      · exact insertSorted_sorted _ _ h
      · exact h
    · exact h

theorem foldl_parseStep_sorted (m : Int) :
    ∀ (parts : List (List Char)) (acc : List Int), acc.Sorted (· < ·) →
      (parts.foldl (parseStep m) acc).Sorted (· < ·) := by
  intro parts
  induction parts with
  | nil => intro acc h; exact h
  | cons p ps ih => intro acc h; exact ih _ (parseStep_sorted m acc p h)

/-- C8.  Selection parsing: `parse_episode_range` returns a deduplicated
ascending list; range bounds are clamped into `[1, max]`, out-of-range single
values are dropped.  In particular "1-5,10,15-20" with max 20 yields
1-5,10,15-20; "all" with max N yields exactly 1..N; "25" with max 20 yields
the empty list; "0-3" with max 20 yields 1-3; and every result is strictly
ascending (hence deduplicated). -/
theorem C8_selection_parsing :
    parse_episode_range "1-5,10,15-20" 20 = [1,2,3,4,5,10,15,16,17,18,19,20] ∧
    (∀ n k : Int, k ∈ parse_episode_range "all" n ↔ 1 ≤ k ∧ k ≤ n) ∧
    parse_episode_range "25" 20 = [] ∧
    parse_episode_range "0-3" 20 = [1,2,3] ∧
    (∀ (s : String) (m : Int), (parse_episode_range s m).Sorted (· < ·)) := by
  refine ⟨by decide, ?_, by decide, by decide, ?_⟩
  · intro n k
    have h : parse_episode_range "all" n
        = (List.range n.toNat).map (fun (i : Nat) => (i : Int) + 1) := rfl
    rw [h]
    simp only [List.mem_map, List.mem_range]
    constructor
    · rintro ⟨i, hi, rfl⟩; omega
    · intro hk
      exact ⟨(k - 1).toNat, by omega, by omega⟩
  · intro s m
    unfold parse_episode_range
    split
    · have : List.Sorted (· < ·) (List.range m.toNat) := List.pairwise_lt_range _
      rw [List.Sorted]
      rw [List.pairwise_map]
      exact this.imp (by intro a b hab; omega)
    · exact foldl_parseStep_sorted m _ [] (by simp)

/-! ## Artifact naming (claim C7) -/

/-- C7.  Artifact naming: across the two-digit episode range the width-2
zero padding gives injective names whose lexicographic order agrees with the
numeric episode order (episode 7 and episode 70 never collide), and the
partial-artifact name is the final-artifact name plus the fixed ".part"
suffix. -/
theorem C7_artifact_naming :
    (∀ m : Nat, m < 100 → ∀ n : Nat, n < 100 → 1 ≤ m → m < n →
      get_episode_filename m ≠ get_episode_filename n ∧
      lexLt (get_episode_filename m).toList (get_episode_filename n).toList = true) ∧
    (∀ e : Nat, e < 100 → 1 ≤ e →
      temp_filename e = get_episode_filename e ++ ".part") := by decide

/-- C7 witness at episodes 7 and 70. -/
theorem C7_artifact_naming_witness :
    (get_episode_filename 7 ≠ get_episode_filename 70 ∧
     lexLt (get_episode_filename 7).toList (get_episode_filename 70).toList = true) ∧
    temp_filename 7 = get_episode_filename 7 ++ ".part" :=
  ⟨C7_artifact_naming.1 7 (by decide) 70 (by decide) (by decide) (by decide),
   C7_artifact_naming.2 7 (by decide) (by decide)⟩

/-! ## Snapshot persistence (claims C10 and C3) -/

theorem decodeIntList_map (l : List Int) : decodeIntList (l.map Json.num) = some l := by
  induction l with
  | nil => rfl
  | cons a t ih => simp [decodeIntList, ih]

/-- C10.  Round-trip persistence: saving any well-formed session state and
loading it back returns the same state (as a well-typed object), with
`current_progress` reconstructed as a progress record when present. -/
theorem C10_save_load_roundtrip (s : DownloadState) :
    DownloadState.load (DownloadState.saveFile s) = .ok (some (.typed s)) := by
  obtain ⟨sid, title, tot, outd, sel, comp, ce, cp⟩ := s
  cases ce <;> cases cp <;>
    simp [DownloadState.load, DownloadState.saveFile, stateToJson, stateOfJson,
          progressToJson, progressCtorOk, stateCtorOk, decodeTypedState,
          decodeTypedProgress, lookupKey, jsonTruthy, decodeIntList_map,
          progressKeys, stateKeys]

/-- C3 counterexample: syntactically valid JSON whose fields do not match the
state record (an empty object) does not load as Absent — `DownloadState(**{})`
raises `TypeError`, which the `except (FileNotFoundError, JSONDecodeError)`
clause does not catch. -/
theorem C3_load_cex : DownloadState.load (.content (.obj [])) ≠ .ok none := by
  intro h
  rw [show DownloadState.load (.content (.obj [])) = .error .typeError from rfl] at h
  exact Except.noConfusion h

/-- C3 amended: `load` returns Absent (`None`) both when no snapshot file
exists and when the snapshot fails JSON decoding, the two being
indistinguishable; a decodable snapshot that rebuilds into a state is
returned whole; but a decodable snapshot whose keys do not match the
constructors raises instead of returning Absent, and a keyword-correct
snapshot always constructs without value validation — wrong-shaped field
values yield a malformed state object, not Absent. -/
theorem C3_load_amended :
    DownloadState.load .missing = .ok none ∧
    DownloadState.load .undecodable = .ok none ∧
    (∀ j ls, stateOfJson j = .ok ls → DownloadState.load (.content j) = .ok (some ls)) ∧
    (∀ j e, stateOfJson j = .error e → DownloadState.load (.content j) = .error e) ∧
    DownloadState.load (.content junkSnapshot) = .ok (some (.untyped junkSnapshot)) := by
  refine ⟨rfl, rfl, ?_, ?_, rfl⟩ <;> intro j v h <;> simp [DownloadState.load, h]

/-- C3 witness: the amended theorem applied to a concrete valid snapshot and
to the concrete malformed snapshot. -/
theorem C3_load_amended_witness :
    DownloadState.load (.content (stateToJson sampleState))
      = .ok (some (.typed sampleState)) ∧
    DownloadState.load (.content (.obj [])) = .error .typeError :=
  ⟨C3_load_amended.2.2.1 (stateToJson sampleState) (.typed sampleState) (by rfl),
   C3_load_amended.2.2.2.1 (.obj []) .typeError (by rfl)⟩

/-! ## Chunk-loop traversal lemmas (shared by claims C1, C5, C6) -/

theorem saveIfE_reliable (env : Env) (hs : ∀ n, env.saveFailAt n = false)
    (st : Option DownloadState) (saves : List DownloadState) :
    saveIfE env st saves = .ok (saveIf st saves) := by
  cases st <;> simp [saveIfE, saveIf, hs]

theorem loopBody_ok (env : Env) (epN total : Int) (k : Nat) (c : List Nat) (s : LoopSt)
    (hw : env.writeFailAt k = false) (hs : ∀ n, env.saveFailAt n = false) :
    ∃ s', loopBody env epN total k c s = .ok s' ∧
      s'.buffer = s.buffer ++ c ∧
      s'.st.isSome = s.st.isSome ∧
      ∃ ext, s'.saves = s.saves ++ ext := by
  unfold loopBody
  by_cases hc : c.isEmpty
  · rw [if_pos hc]
    exact ⟨s, rfl, by rw [List.isEmpty_iff.mp hc, List.append_nil], rfl, [], by simp⟩
  · rw [if_neg hc, hw, if_neg Bool.false_ne_true]
    cases s.st
    · exact ⟨_, rfl, rfl, rfl, [], by simp⟩
    · dsimp only
      split
      · rw [saveIfE_reliable env hs]
        dsimp only [saveIf]
        exact ⟨_, rfl, rfl, rfl, [_], rfl⟩
      · exact ⟨_, rfl, rfl, rfl, [], by simp⟩

/-- Running the loop over a prefix of data chunks with the cancelled flag
clear throughout the prefix and a cooperating filesystem just advances the
loop state: the chunks land in the buffer, the presence of a session state
is preserved and snapshots only accumulate. -/
theorem runLoop_data_prefix (env : Env) (epN total : Int)
    (hw : ∀ k, env.writeFailAt k = false) (hs : ∀ n, env.saveFailAt n = false) :
    ∀ (chunks : List (List Nat)) (restItems : List Item) (k : Nat) (s : LoopSt),
      (∀ j, k ≤ j → j < k + chunks.length → env.cancelAt j = false) →
      ∃ s', runLoop env epN total (chunks.map Item.data ++ restItems) k s
              = runLoop env epN total restItems (k + chunks.length) s' ∧
            s'.buffer = s.buffer ++ chunks.flatten ∧
            s'.st.isSome = s.st.isSome ∧
            ∃ ext, s'.saves = s.saves ++ ext := by
  intro chunks
  induction chunks with
  | nil =>
    intro restItems k s _
    exact ⟨s, by simp, by simp, rfl, [], by simp⟩
  | cons c cs ih =>
    intro restItems k s hnc
    have hk : env.cancelAt k = false := hnc k le_rfl (by simp)
    obtain ⟨s1, hb1, hbuf1, hsome1, ext1, hsaves1⟩ :=
      loopBody_ok env epN total k c s (hw k) hs
    obtain ⟨s', heq, hbuf, hsome, ext, hsaves⟩ :=
      ih restItems (k + 1) s1 (fun j h1 h2 => hnc j (by omega) (by simp; omega))
    refine ⟨s', ?_, ?_, ?_, ext1 ++ ext, ?_⟩
    · rw [List.map_cons, List.cons_append]
      rw [runLoop, if_neg (by simp [hk]), hb1]
      dsimp only
      rw [heq]
      congr 1
      simp only [List.length_cons]
      omega
    · rw [hbuf, hbuf1, List.flatten_cons, List.append_assoc]
    · rw [hsome, hsome1]
    · rw [hsaves, hsaves1, List.append_assoc]

/-- Under a cooperating filesystem the loop never ends in an escaped
`OSError`. -/
theorem runLoop_not_raised (env : Env) (epN total : Int)
    (hw : ∀ k, env.writeFailAt k = false) (hs : ∀ n, env.saveFailAt n = false) :
    ∀ (items : List Item) (k : Nat) (s ls : LoopSt),
      runLoop env epN total items k s ≠ .raised ls := by
  intro items
  induction items with
  | nil =>
    intro k s ls h
    exact LoopOut.noConfusion h
  | cons it rest ih =>
    intro k s ls h
    cases it with
    | err => exact LoopOut.noConfusion h
    | data c =>
      rw [runLoop] at h
      by_cases hca : env.cancelAt k = true
      · rw [if_pos hca] at h
        exact LoopOut.noConfusion h
      · rw [if_neg hca] at h
        obtain ⟨s1, hb1, _⟩ := loopBody_ok env epN total k c s (hw k) hs
        rw [hb1] at h
        exact ih (k + 1) s1 ls h

theorem saveIf_head (st : Option DownloadState) (a : DownloadState) (l : List DownloadState) :
    (saveIf st (a :: l)).head? = some a := by
  cases st <;> simp [saveIf]

/-- A run whose response classifies successfully, whose body is all data
chunks and whose cancelled flag stays clear, completes: the partial artifact
is renamed away, the final artifact holds the starting buffer (the old
partial bytes exactly when resuming an honored range) followed by the body,
and the first persisted snapshot records the classified offset and total. -/
theorem download_episode_all_chunks_ok (ep : EpisodeInfo) (env : Env) (fs : FS)
    (st0 : Option DownloadState) (r : HttpResponse) (total : Int) (dl1 : Nat)
    (is206 : Bool) (chunks : List (List Nat))
    (hresp : env.resp = some r)
    (hcls : classify r (tempLen fs) = .ok (some (total, dl1, is206)))
    (hbody : r.body = chunks.map Item.data)
    (hcancel : ∀ k, env.cancelAt k = false)
    (hfs : fsReliable env) :
    (download_episode ep env fs st0).ret = .ok true ∧
    (download_episode ep env fs st0).fs
      = ⟨none, some ((if dl1 > 0 && is206 then tempBytes fs else []) ++ chunks.flatten)⟩ ∧
    (download_episode ep env fs st0).rangeRequested
      = (if tempLen fs > 0 then some (tempLen fs) else none) ∧
    (∀ s0, st0 = some s0 →
      (download_episode ep env fs st0).saves.head?
        = some { s0 with
                 current_episode := some ep.episode_number
                 current_progress := some ⟨ep.episode_number, (dl1 : Int), total, false⟩ }) := by
  obtain ⟨hopen, hw, hs, hren⟩ := hfs
  unfold download_episode
  rw [hresp]
  dsimp only
  rw [hcls]
  dsimp only
  rw [saveIfE_reliable env hs]
  dsimp only
  rw [hopen, if_neg Bool.false_ne_true, hbody]
  obtain ⟨s', heq, hbuf, hsome, ext, hsaves⟩ :=
    runLoop_data_prefix env ep.episode_number total hw hs chunks [] 0 _
      (fun j _ _ => hcancel j)
  rw [List.append_nil] at heq
  rw [heq]
  dsimp only [runLoop]
  rw [hren, if_neg Bool.false_ne_true, saveIfE_reliable env hs]
  dsimp only
  refine ⟨rfl, ?_, rfl, ?_⟩
  · rw [hbuf]
  · intro s0 hs0
    subst hs0
    dsimp only [saveIf, Option.map] at hsaves
    rw [List.nil_append, List.singleton_append] at hsaves
    rw [hsaves, saveIf_head]

/-! ## Session-state clearing (claim C2) -/

/-- C2 counterexample: a `download_episode` call that fails with a network
error returns `False` with `current_episode` still set (not cleared) — the
failure paths do not reset the in-transfer fields. -/
theorem C2_clear_cex :
    (download_episode epOne envNetErr ⟨none, none⟩ (some sampleState)).ret = .ok false ∧
    (download_episode epOne envNetErr ⟨none, none⟩ (some sampleState)).st.map
      (fun s => s.current_episode) = some (some 1) := ⟨rfl, rfl⟩

/-- C2 amended: the in-transfer fields are guaranteed cleared only on the
success path; whenever `download_episode` returns `True`, the resulting
session state (when present) has `current_episode = None` and
`current_progress = None`. -/
theorem C2_success_clears (ep : EpisodeInfo) (env : Env) (fs : FS)
    (st0 : Option DownloadState) :
    (download_episode ep env fs st0).ret = .ok true →
    ∀ s', (download_episode ep env fs st0).st = some s' →
      s'.current_episode = none ∧ s'.current_progress = none := by
  unfold download_episode
  dsimp only
  repeat' split
  all_goals intro h
  all_goals try simp at h
  all_goals
    intro s' hs
    simp only [Option.map_eq_some'] at hs
    obtain ⟨s, _, rfl⟩ := hs
    exact ⟨rfl, rfl⟩

/-- C2 witness: a successful concrete run, whose resulting state (equal to
`sampleState`) has both in-transfer fields cleared. -/
theorem C2_success_clears_witness :
    sampleState.current_episode = none ∧ sampleState.current_progress = none :=
  C2_success_clears epOne envFresh ⟨none, none⟩ (some sampleState) rfl sampleState (by rfl)

/-! ## Engine boundary (claim C4) -/

/-- C4 counterexample: filesystem faults escape `download_episode` instead
of resolving to a boolean — `OSError` from opening the partial artifact,
from a mid-stream `f.write`, from the final rename, and from the state save
inside the network-error `except` handler all cross the engine boundary,
since only `requests.RequestException` is caught. -/
theorem C4_boundary_cex :
    (download_episode epOne envOpenFail ⟨none, none⟩ none).ret = .error .osError ∧
    (download_episode epOne envOpenFail ⟨none, none⟩ none).ret ≠ .ok true ∧
    (download_episode epOne envOpenFail ⟨none, none⟩ none).ret ≠ .ok false ∧
    (download_episode epOne envWriteFail ⟨none, none⟩ none).ret = .error .osError ∧
    (download_episode epOne envRenameFail ⟨none, none⟩ none).ret = .error .osError ∧
    (download_episode epOne envSaveFailOnNetErr ⟨none, none⟩ (some sampleState)).ret
      = .error .osError := by
  refine ⟨rfl, ?_, ?_, rfl, rfl, rfl⟩ <;>
    · intro h
      rw [show (download_episode epOne envOpenFail ⟨none, none⟩ none).ret
            = .error .osError from rfl] at h
      exact Except.noConfusion h

/-- C4 amended: network-level failures are returned, not thrown — a request
exception (connect or timeout) yields `False` provided the `except`
handler's own state save does not fail, and under a cooperating filesystem
every classified response resolves to a boolean whatever the body stream
does (mid-stream network faults included); filesystem faults (open, write,
state-snapshot save, rename) and malformed numeric headers escape as
exceptions. -/
theorem C4_network_failures_returned :
    (∀ ep env fs st0, env.resp = none → (∀ n, env.saveFailAt n = false) →
      (download_episode ep env fs st0).ret = .ok false) ∧
    (∀ ep env fs st0 r v, env.resp = some r → classify r (tempLen fs) = .ok v →
      fsReliable env → ∃ b, (download_episode ep env fs st0).ret = .ok b) := by
  constructor
  · intro ep env fs st0 h hs
    unfold download_episode
    rw [h]
    dsimp only
    rw [saveIfE_reliable env hs]
  · intro ep env fs st0 r v h1 h2 hfs
    obtain ⟨hopen, hw, hs, hren⟩ := hfs
    unfold download_episode
    rw [h1]
    dsimp only
    rw [h2]
    rcases v with _ | ⟨t, d, i⟩
    · exact ⟨false, rfl⟩
    · dsimp only
      rw [saveIfE_reliable env hs]
      dsimp only
      rw [hopen, if_neg Bool.false_ne_true]
      generalize hl : runLoop env ep.episode_number t r.body 0 _ = out
      cases out with
      | finished ls =>
        dsimp only
        rw [hren, if_neg Bool.false_ne_true, saveIfE_reliable env hs]
        exact ⟨true, rfl⟩
      | cancelled ls =>
        dsimp only
        rw [saveIfE_reliable env hs]
        exact ⟨false, rfl⟩
      | netErr ls =>
        dsimp only
        rw [saveIfE_reliable env hs]
        exact ⟨false, rfl⟩
      | raised ls => exact absurd hl (runLoop_not_raised env ep.episode_number t hw hs r.body 0 _ ls)

/-- C4 witness: the amended theorem at a concrete request failure and a
concrete successful classification under a cooperating filesystem. -/
theorem C4_network_failures_returned_witness :
    (download_episode epOne envNetErr ⟨none, none⟩ none).ret = .ok false ∧
    ∃ b, (download_episode epOne envFresh ⟨none, none⟩ none).ret = .ok b :=
  ⟨C4_network_failures_returned.1 epOne envNetErr ⟨none, none⟩ none rfl (fun _ => rfl),
   C4_network_failures_returned.2 epOne envFresh ⟨none, none⟩ none _
     (some (1000, 0, false)) rfl (by rfl)
     ⟨rfl, fun _ => rfl, fun _ => rfl, rfl⟩⟩

/-! ## Resume correctness (claim C1) -/

/-- C1.  Resume correctness: with a non-empty partial artifact of `L` bytes
and a server that answers the range request with 206 and sends the remaining
`total - L` bytes, `download_episode` sends `Range: bytes=L-`, appends the
body to the partial bytes, and the final artifact's size equals the
`Content-Range` total while its length-`L` prefix is byte-identical to the
original partial artifact; the first persisted checkpoint records offset `L`
and the `Content-Range` total. -/
theorem C1_resume_correctness (ep : EpisodeInfo) (env : Env) (p : List Nat)
    (ffinal : Option (List Nat)) (st0 : Option DownloadState) (r : HttpResponse)
    (T : Int) (chunks : List (List Nat))
    (hp : p ≠ [])
    (hresp : env.resp = some r)
    (hstatus : r.status = 206)
    (hcr : contentRangeTotal r.contentRange = .ok T)
    (hbody : r.body = chunks.map Item.data)
    (hcancel : ∀ k, env.cancelAt k = false)
    (hfs : fsReliable env)
    (hhonest : (p.length : Int) + (chunks.flatten.length : Int) = T) :
    (download_episode ep env ⟨some p, ffinal⟩ st0).rangeRequested = some p.length ∧
    (download_episode ep env ⟨some p, ffinal⟩ st0).ret = .ok true ∧
    (download_episode ep env ⟨some p, ffinal⟩ st0).fs.final = some (p ++ chunks.flatten) ∧
    (∀ q, (download_episode ep env ⟨some p, ffinal⟩ st0).fs.final = some q →
      (q.length : Int) = T ∧ q.take p.length = p) ∧
    (∀ s0, st0 = some s0 →
      (download_episode ep env ⟨some p, ffinal⟩ st0).saves.head?
        = some { s0 with
                 current_episode := some ep.episode_number
                 current_progress := some ⟨ep.episode_number, (p.length : Int), T, false⟩ }) := by
  have hlen : tempLen ⟨some p, ffinal⟩ = p.length := rfl
  have hpos : 0 < p.length := List.length_pos.mpr hp
  have hcls : classify r (tempLen ⟨some p, ffinal⟩) = .ok (some (T, p.length, true)) := by
    unfold classify
    rw [hlen, hstatus, if_pos rfl, hcr]
    rfl
  obtain ⟨h1, h2, h3, h4⟩ :=
    download_episode_all_chunks_ok ep env ⟨some p, ffinal⟩ st0 r T p.length true chunks
      hresp hcls hbody hcancel hfs
  have hbuf : (if p.length > 0 && true then tempBytes ⟨some p, ffinal⟩ else []) = p := by
    have : (decide (p.length > 0) && true) = true := by simp [hpos]
    rw [this]
    rfl
  rw [hbuf] at h2
  have hfin : (download_episode ep env ⟨some p, ffinal⟩ st0).fs.final
      = some (p ++ chunks.flatten) := by rw [h2]
  refine ⟨?_, h1, hfin, ?_, h4⟩
  · rw [h3, hlen, if_pos hpos]
  · intro q hq
    rw [hfin] at hq
    injection hq with hq
    subst hq
    constructor
    · rw [List.length_append]
      push_cast
      omega
    · exact List.take_left p chunks.flatten

/-- C1 witness: resuming a 500-byte partial artifact against a server that
honors the range with a 206 answer, `bytes 500-999/1000`, and a 500-byte
body. -/
theorem C1_resume_correctness_witness :
    (download_episode epOne envResume
        ⟨some (List.replicate 500 120), none⟩ (some sampleState)).rangeRequested = some 500 ∧
    (download_episode epOne envResume
        ⟨some (List.replicate 500 120), none⟩ (some sampleState)).ret = .ok true ∧
    (download_episode epOne envResume
        ⟨some (List.replicate 500 120), none⟩ (some sampleState)).fs.final
      = some (List.replicate 500 120 ++ List.replicate 500 121) := by
  have h := C1_resume_correctness epOne envResume (List.replicate 500 120) none
    (some sampleState) ⟨206, some "bytes 500-999/1000", none, [.data (List.replicate 500 121)]⟩
    1000 [List.replicate 500 121] (by decide) rfl rfl (by rfl) rfl (fun k => rfl)
    ⟨rfl, fun _ => rfl, fun _ => rfl, rfl⟩ (by decide)
  exact ⟨h.1, h.2.1, h.2.2.1⟩

/-! ## Fallback-restart correctness (claim C5) -/

/-- C5.  Fallback restart: with a non-empty partial artifact, a server that
ignores the range and answers 200 makes `download_episode` reset the
downloaded-byte counter to 0 (recorded in the first persisted checkpoint)
and truncate: the final artifact is exactly the response body, equal to the
final artifact of the same transfer started from empty local state — no
partial bytes leak into the result. -/
theorem C5_fallback_restart (ep : EpisodeInfo) (env : Env) (p : List Nat)
    (ffinal : Option (List Nat)) (st0 : Option DownloadState) (r : HttpResponse)
    (T : Int) (chunks : List (List Nat))
    (hp : p ≠ [])
    (hresp : env.resp = some r)
    (hstatus : r.status = 200)
    (hcl : contentLengthTotal r.contentLength = .ok T)
    (hbody : r.body = chunks.map Item.data)
    (hcancel : ∀ k, env.cancelAt k = false)
    (hfs : fsReliable env) :
    (download_episode ep env ⟨some p, ffinal⟩ st0).rangeRequested = some p.length ∧
    (download_episode ep env ⟨some p, ffinal⟩ st0).ret = .ok true ∧
    (download_episode ep env ⟨some p, ffinal⟩ st0).fs.final = some chunks.flatten ∧
    (download_episode ep env ⟨some p, ffinal⟩ st0).fs.final
      = (download_episode ep env ⟨none, none⟩ st0).fs.final ∧
    (∀ s0, st0 = some s0 →
      (download_episode ep env ⟨some p, ffinal⟩ st0).saves.head?
        = some { s0 with
                 current_episode := some ep.episode_number
                 current_progress := some ⟨ep.episode_number, 0, T, false⟩ }) := by
  have hpos : 0 < p.length := List.length_pos.mpr hp
  have hcls : ∀ d0 : Nat, classify r d0 = .ok (some (T, 0, false)) := by
    intro d0
    unfold classify
    rw [hstatus, if_neg (by decide), if_pos rfl, hcl]
    rfl
  obtain ⟨h1, h2, h3, h4⟩ :=
    download_episode_all_chunks_ok ep env ⟨some p, ffinal⟩ st0 r T 0 false chunks
      hresp (hcls _) hbody hcancel hfs
  obtain ⟨g1, g2, g3, g4⟩ :=
    download_episode_all_chunks_ok ep env ⟨none, none⟩ st0 r T 0 false chunks
      hresp (hcls _) hbody hcancel hfs
  have hfin : (download_episode ep env ⟨some p, ffinal⟩ st0).fs.final
      = some chunks.flatten := by
    rw [h2]
    simp
  refine ⟨?_, h1, hfin, ?_, h4⟩
  · rw [h3, show tempLen ⟨some p, ffinal⟩ = p.length from rfl, if_pos hpos]
  · rw [hfin, g2]
    simp

/-- C5 witness: a 500-byte partial artifact against a 200 answer with a
1000-byte body; the final artifact is the body alone, as from empty state. -/
theorem C5_fallback_restart_witness :
    (download_episode epOne envFresh
        ⟨some (List.replicate 500 119), none⟩ (some sampleState)).rangeRequested = some 500 ∧
    (download_episode epOne envFresh
        ⟨some (List.replicate 500 119), none⟩ (some sampleState)).ret = .ok true ∧
    (download_episode epOne envFresh
        ⟨some (List.replicate 500 119), none⟩ (some sampleState)).fs.final
      = some (List.replicate 1000 120) ∧
    (download_episode epOne envFresh
        ⟨some (List.replicate 500 119), none⟩ (some sampleState)).fs.final
      = (download_episode epOne envFresh ⟨none, none⟩ (some sampleState)).fs.final := by
  have h := C5_fallback_restart epOne envFresh (List.replicate 500 119) none
    (some sampleState) ⟨200, none, some "1000", [.data (List.replicate 1000 120)]⟩
    1000 [List.replicate 1000 120] (by decide) rfl rfl (by rfl) rfl (fun k => rfl)
    ⟨rfl, fun _ => rfl, fun _ => rfl, rfl⟩
  refine ⟨h.1, h.2.1, ?_, h.2.2.2.1⟩
  rw [h.2.2.1]
  simp

/-! ## Cancellation (claim C6) -/

/-- C6.  Cancellation: when the cancelled flag turns on at a chunk boundary
during an active 206 transfer, the loop stops there — no final artifact is
created, the partial artifact holds exactly the bytes written so far, the
call returns `False` and persists the current state as the last snapshot —
and a subsequent call with the flag clear sends a range request from the
retained offset and completes by appending, rather than restarting. -/
theorem C6_cancellation (ep : EpisodeInfo) (env : Env) (p : List Nat) (s0 : DownloadState)
    (r : HttpResponse) (T : Int) (pre : List (List Nat)) (c : List Nat) (rest : List Item)
    (hp : p ≠ [])
    (hresp : env.resp = some r)
    (hstatus : r.status = 206)
    (hcr : contentRangeTotal r.contentRange = .ok T)
    (hbody : r.body = pre.map Item.data ++ (Item.data c :: rest))
    (hcancelPre : ∀ j, j < pre.length → env.cancelAt j = false)
    (hcancelAt : env.cancelAt pre.length = true)
    (hfs : fsReliable env) :
    (download_episode ep env ⟨some p, none⟩ (some s0)).ret = .ok false ∧
    (download_episode ep env ⟨some p, none⟩ (some s0)).fs.final = none ∧
    (download_episode ep env ⟨some p, none⟩ (some s0)).fs.temp = some (p ++ pre.flatten) ∧
    (∃ scur, (download_episode ep env ⟨some p, none⟩ (some s0)).st = some scur ∧
      (download_episode ep env ⟨some p, none⟩ (some s0)).saves.getLast? = some scur) ∧
    (∀ (env₂ : Env) (r₂ : HttpResponse) (T₂ : Int) (chunks₂ : List (List Nat)),
      env₂.resp = some r₂ → r₂.status = 206 →
      contentRangeTotal r₂.contentRange = .ok T₂ →
      r₂.body = chunks₂.map Item.data →
      (∀ k, env₂.cancelAt k = false) → fsReliable env₂ →
      (download_episode ep env₂ (download_episode ep env ⟨some p, none⟩ (some s0)).fs
          (download_episode ep env ⟨some p, none⟩ (some s0)).st).rangeRequested
        = some (p ++ pre.flatten).length ∧
      (download_episode ep env₂ (download_episode ep env ⟨some p, none⟩ (some s0)).fs
          (download_episode ep env ⟨some p, none⟩ (some s0)).st).ret = .ok true ∧
      (download_episode ep env₂ (download_episode ep env ⟨some p, none⟩ (some s0)).fs
          (download_episode ep env ⟨some p, none⟩ (some s0)).st).fs.final
        = some (p ++ pre.flatten ++ chunks₂.flatten)) := by
  have hpos : 0 < p.length := List.length_pos.mpr hp
  have hcls : classify r (tempLen ⟨some p, (none : Option (List Nat))⟩)
      = .ok (some (T, p.length, true)) := by
    unfold classify
    rw [show tempLen ⟨some p, (none : Option (List Nat))⟩ = p.length from rfl,
        hstatus, if_pos rfl, hcr]
    rfl
  have hcond : (decide (p.length > 0) && true) = true := by simp [hpos]
  obtain ⟨hopen, hw, hsv, hren⟩ := hfs
  have hR1 : ∃ scur sv, download_episode ep env ⟨some p, none⟩ (some s0)
      = ⟨.ok false, ⟨some (p ++ pre.flatten), none⟩, some scur, sv ++ [scur],
         some p.length⟩ := by
    unfold download_episode
    rw [hresp]
    dsimp only
    rw [hcls]
    dsimp only
    rw [saveIfE_reliable env hsv]
    dsimp only
    rw [hopen, if_neg Bool.false_ne_true, hbody]
    obtain ⟨s', heq, hbuf, hsome, ext, hsaves⟩ :=
      runLoop_data_prefix env ep.episode_number T hw hsv pre (Item.data c :: rest) 0 _
        (fun j _ h2 => hcancelPre j (by omega))
    rw [heq, runLoop, Nat.zero_add, hcancelAt, if_pos rfl]
    dsimp only
    have hs' : s'.st.isSome = true := by rw [hsome]; rfl
    obtain ⟨scur, hscur⟩ := Option.isSome_iff_exists.mp hs'
    refine ⟨scur, s'.saves, ?_⟩
    rw [hscur, saveIfE_reliable env hsv]
    dsimp only [saveIf]
    rw [hbuf]
    rw [show (if tempLen ⟨some p, (none : Option (List Nat))⟩ > 0 then
          some (tempLen ⟨some p, (none : Option (List Nat))⟩) else none) = some p.length
        from by rw [show tempLen ⟨some p, (none : Option (List Nat))⟩ = p.length from rfl,
                    if_pos hpos]]
    rw [show (if (decide (p.length > 0) && true) = true
          then tempBytes ⟨some p, (none : Option (List Nat))⟩ else []) = p
        from by rw [hcond]; rfl]
  obtain ⟨scur, sv, hR1⟩ := hR1
  refine ⟨by rw [hR1], by rw [hR1], by rw [hR1], ⟨scur, by rw [hR1], ?_⟩, ?_⟩
  · rw [hR1]
    simp
  · intro env₂ r₂ T₂ chunks₂ e1 e2 e3 e4 e5 e6
    rw [hR1]
    have hcls₂ : classify r₂ (tempLen ⟨some (p ++ pre.flatten), (none : Option (List Nat))⟩)
        = .ok (some (T₂, (p ++ pre.flatten).length, true)) := by
      unfold classify
      rw [show tempLen ⟨some (p ++ pre.flatten), (none : Option (List Nat))⟩
            = (p ++ pre.flatten).length from rfl, e2, if_pos rfl, e3]
      rfl
    have hpos₂ : 0 < (p ++ pre.flatten).length := by
      rw [List.length_append]
      omega
    obtain ⟨k1, k2, k3, k4⟩ :=
      download_episode_all_chunks_ok ep env₂ ⟨some (p ++ pre.flatten), none⟩ (some scur)
        r₂ T₂ (p ++ pre.flatten).length true chunks₂ e1 hcls₂ e4 e5 e6
    have hcond₂ : (decide ((p ++ pre.flatten).length > 0) && true) = true := by
      rw [Bool.and_true, decide_eq_true_eq]
      exact hpos₂
    refine ⟨?_, k1, ?_⟩
    · rw [k3, show tempLen ⟨some (p ++ pre.flatten), (none : Option (List Nat))⟩
            = (p ++ pre.flatten).length from rfl, if_pos hpos₂]
    · rw [k2]
      dsimp only
      rw [show (if (decide ((p ++ pre.flatten).length > 0) && true) = true
            then tempBytes ⟨some (p ++ pre.flatten), (none : Option (List Nat))⟩ else [])
            = p ++ pre.flatten
          from by rw [hcond₂]; rfl]

/-- C6 witness: cancelling after the first chunk of a 206 transfer over a
2-byte partial artifact, then resuming with the flag clear: the retained
4-byte partial artifact is extended to the final artifact. -/
theorem C6_cancellation_witness :
    (download_episode epOne envCancel206 ⟨some [9, 9], none⟩ (some sampleState)).ret
      = .ok false ∧
    (download_episode epOne envCancel206 ⟨some [9, 9], none⟩ (some sampleState)).fs.final
      = none ∧
    (download_episode epOne envCancel206 ⟨some [9, 9], none⟩ (some sampleState)).fs.temp
      = some [9, 9, 1, 2] ∧
    (download_episode epOne envResumeAfterCancel
        (download_episode epOne envCancel206 ⟨some [9, 9], none⟩ (some sampleState)).fs
        (download_episode epOne envCancel206 ⟨some [9, 9], none⟩
          (some sampleState)).st).rangeRequested = some 4 ∧
    (download_episode epOne envResumeAfterCancel
        (download_episode epOne envCancel206 ⟨some [9, 9], none⟩ (some sampleState)).fs
        (download_episode epOne envCancel206 ⟨some [9, 9], none⟩
          (some sampleState)).st).ret = .ok true ∧
    (download_episode epOne envResumeAfterCancel
        (download_episode epOne envCancel206 ⟨some [9, 9], none⟩ (some sampleState)).fs
        (download_episode epOne envCancel206 ⟨some [9, 9], none⟩
          (some sampleState)).st).fs.final = some [9, 9, 1, 2, 7, 8] := by
  have h := C6_cancellation epOne envCancel206 [9, 9] sampleState
    ⟨206, some "bytes 2-9/10", none, [.data [1, 2], .data [3, 4], .data [5, 6]]⟩ 10
    [[1, 2]] [3, 4] [.data [5, 6]]
    (by decide) rfl rfl (by rfl) rfl (by decide) rfl
    ⟨rfl, fun _ => rfl, fun _ => rfl, rfl⟩
  have h2 := h.2.2.2.2 envResumeAfterCancel
    ⟨206, some "bytes 4-9/10", none, [.data [7, 8]]⟩ 10 [[7, 8]]
    rfl rfl (by rfl) rfl (fun k => rfl)
    ⟨rfl, fun _ => rfl, fun _ => rfl, rfl⟩
  exact ⟨h.1, h.2.1, h.2.2.1, h2.1, h2.2.1, h2.2.2⟩

/-! ## Idempotence (claim C9) -/

theorem download_all_go_all_completed (benv : BatchEnv) (s : DownloadState)
    (hcb : ∀ i, benv.cancelBefore i = false) :
    ∀ (episodes : List EpisodeInfo) (i succ fail : Nat) (fss : Int → FS) (n : Nat),
      (∀ e ∈ episodes, e.episode_number ∈ s.completed_episodes) →
      download_all_go benv episodes i succ fail fss (some s) n
        = .ok ⟨succ + episodes.length, fail, fss, some s, n⟩ := by
  intro episodes
  induction episodes with
  | nil =>
    intro i succ fail fss n _
    simp [download_all_go]
  | cons e es ih =>
    intro i succ fail fss n hall
    rw [download_all_go, hcb i, if_neg Bool.false_ne_true]
    dsimp only
    rw [if_pos (decide_eq_true (hall e (List.mem_cons_self e es)))]
    rw [ih (i + 1) (succ + 1) fail fss n (fun e' he' => hall e' (List.mem_cons_of_mem e he'))]
    rw [show succ + 1 + es.length = succ + (e :: es).length from by
      rw [List.length_cons]; omega]

/-- C9.  Idempotence: when every selected episode is already completed,
`get_remaining_episodes` is empty, and `download_all` over a list of episodes
that are all already completed counts them all as successes without a single
`download_episode` invocation (zero network calls), leaving the session
state untouched. -/
theorem C9_idempotence (benv : BatchEnv) (episodes : List EpisodeInfo) (fss : Int → FS)
    (s : DownloadState)
    (hcb : ∀ i, benv.cancelBefore i = false)
    (hall : ∀ e ∈ episodes, e.episode_number ∈ s.completed_episodes) :
    (s.completed_episodes = s.selected_episodes → get_remaining_episodes (some s) = []) ∧
    download_all benv episodes fss (some s)
      = .ok ⟨episodes.length, 0, fss, some s, 0⟩ := by
  constructor
  · intro hcs
    unfold get_remaining_episodes
    dsimp only
    rw [hcs]
    simp
  · unfold download_all
    rw [download_all_go_all_completed benv s hcb episodes 0 0 0 fss 0 hall,
        Nat.zero_add]

/-- C9 witness: a session whose five selected episodes are all completed:
no remaining episodes, and a one-episode batch returns `(1, 0)` with zero
transfers. -/
theorem C9_idempotence_witness :
    get_remaining_episodes (some ⟨941, "Test Series", 30, "./output",
      [1, 2, 3, 4, 5], [1, 2, 3, 4, 5], none, none⟩) = [] ∧
    download_all benvIdle [epOne] (fun _ => ⟨none, none⟩)
        (some ⟨941, "Test Series", 30, "./output",
          [1, 2, 3, 4, 5], [1, 2, 3, 4, 5], none, none⟩)
      = .ok ⟨1, 0, fun _ => ⟨none, none⟩,
             some ⟨941, "Test Series", 30, "./output",
               [1, 2, 3, 4, 5], [1, 2, 3, 4, 5], none, none⟩, 0⟩ := by
  have h := C9_idempotence benvIdle [epOne] (fun _ => ⟨none, none⟩)
    ⟨941, "Test Series", 30, "./output", [1, 2, 3, 4, 5], [1, 2, 3, 4, 5], none, none⟩
    (fun i => rfl) (by decide)
  exact ⟨h.1 rfl, h.2⟩
